import Mathlib

/-!
# LibreTiny: station-mode Wi-Fi glue (realtek-ambz) and the cb3s pin table

A shallow embedding of `arduino/realtek-ambz/libraries/WiFi/WiFiSTA.cpp` and of
`boards/variants/cb3s.h`.

* Bytes are natural numbers. A `char *` is modelled by the bytes found in memory
  from the pointer onwards (`none` is the null pointer); the string it denotes
  is what precedes the first zero byte (`cstr`).
* The vendor driver, the TCP/IP stack and the methods of `WiFiClass` that are
  defined in other translation units (`enableSTA`, `status`) are external. Each
  call to them is appended to a trace, and the value they return is given by an
  `Oracle`, a function of the calls made so far and of the arguments. They
  act on this code only through those return values.
* Constants declared in headers that are not part of the sources are the fields
  of an `Sdk` record, over which every general statement is quantified.
* `unsigned long` is 32 bits wide on this target (ARM Cortex-M4).
-/

set_option linter.unusedVariables false

namespace LibreTiny

/-! ## C strings and buffers -/

/-- String denoted by the memory `m`: the bytes before the first zero byte. -/
def cstr (m : List Nat) : List Nat :=
  m.takeWhile (fun b => b != 0)

/-- Length of the string denoted by `m`, as computed by the C function `strlen`. -/
def strlen (m : List Nat) : Nat :=
  (cstr m).length

/-- Result of `strcpy(dst, src)` on the buffer `dst`: the characters of `src`
and a terminating zero overwrite the front of the buffer, the bytes behind them
are kept. (When `src` does not fit, C leaves the behaviour undefined; here the
list becomes longer.) -/
def strcpy (dst src : List Nat) : List Nat :=
  cstr src ++ 0 :: dst.drop (strlen src + 1)

/-- Result of `memset(dst, c, n)` on the buffer `dst`. -/
def memset (dst : List Nat) (c n : Nat) : List Nat :=
  List.replicate n c ++ dst.drop n

/-! ## External calls -/

/-- Value of an `IPAddress`: its four octets, `o0` being `operator[](0)`. -/
structure IPAddress where
  o0 : Nat
  o1 : Nat
  o2 : Nat
  o3 : Nat
deriving DecidableEq, Repr

/-- Calls that leave this translation unit, with their arguments. A buffer
argument is recorded by its content, a null pointer by `none`. The trailing
semaphore argument of the two connect functions is always `NULL` and is not
recorded. -/
inductive Call where
  | enableSTA (enable : Bool)
  | wifi_connect (ssid : List Nat) (security_type : Nat) (password : Option (List Nat))
      (ssid_len password_len key_id : Nat)
  | wifi_connect_bssid (bssid : List Nat) (ssid : List Nat) (security_type : Nat)
      (password : Option (List Nat)) (bssid_len ssid_len password_len key_id : Nat)
  | LwIP_DHCP (idx dhcp_state : Nat)
  | wifi_disconnect
  | status
  | millis
  | delay (ms : Nat)
  | netif_set_addr (ipaddr netmask gw : IPAddress)
  | dns_setserver (numdns : Nat) (dnsserver : IPAddress)
  | wifi_get_setting
deriving DecidableEq, Repr

/-- Answers of the external world. The first argument of every field is the
list of calls made before the one being answered. -/
structure Oracle where
  enableSTA : List Call → Bool → Bool
  wifi_connect : List Call → List Nat → Nat → Option (List Nat) → Nat → Nat → Nat → Int
  wifi_connect_bssid :
    List Call → List Nat → List Nat → Nat → Option (List Nat) → Nat → Nat → Nat → Nat → Int
  LwIP_DHCP : List Call → Nat → Nat → Nat
  wifi_disconnect : List Call → Int
  status : List Call → Nat
  millis : List Call → Nat
  wifi_mode : List Call → Nat
  wifi_get_setting : List Call → List Nat

/-- Constants of the vendor SDK and of the Arduino core whose declarations are
not part of the sources. -/
structure Sdk where
  WL_CONNECTED : Nat
  WL_CONNECT_FAILED : Nat
  WL_DISCONNECTED : Nat
  RTW_SUCCESS : Int
  RTW_SECURITY_OPEN : Nat
  RTW_SECURITY_WPA2_AES_PSK : Nat
  ETH_ALEN : Nat
  DHCP_START : Nat
  DHCP_ADDRESS_ASSIGNED : Nat
  WIFI_MODE_STA : Nat

/-! ## Data of the translation unit -/

/-- Target of the pointer `wifi.password`: null, or the buffer `sta_password`. -/
inductive PasswordPtr where
  | null
  | sta_password
deriving DecidableEq, Repr

/-- The global `wifi` of type `rtw_network_info_t`. -/
structure rtw_network_info_t where
  ssid_len : Nat
  ssid_val : List Nat
  bssid : List Nat
  security_type : Nat
  password : PasswordPtr
  password_len : Nat
  key_id : Nat
deriving DecidableEq, Repr

/-- Globals used by the station-mode methods, and the trace of external calls. -/
structure State where
  wifi : rtw_network_info_t
  sta_password : List Nat
  trace : List Call
deriving DecidableEq, Repr

/-- Record an external call. -/
def State.log (s : State) (c : Call) : State :=
  { s with trace := s.trace ++ [c] }

/-- What the driver finds behind `(char *)wifi.password`. -/
def State.password (s : State) : Option (List Nat) :=
  match s.wifi.password with
  | PasswordPtr.null => none
  | PasswordPtr.sta_password => some s.sta_password

/-! ## WiFiSTA.cpp -/

/-- Embedding of `WiFiClass::reconnect(const uint8_t *bssid)`. -/
def reconnect (k : Sdk) (o : Oracle) (s : State) (bssid : Option (List Nat)) : Bool × State :=
  let call : Call :=
    match bssid with
    | none =>
      Call.wifi_connect s.wifi.ssid_val s.wifi.security_type s.password
        s.wifi.ssid_len s.wifi.password_len s.wifi.key_id
    | some b =>
      Call.wifi_connect_bssid b s.wifi.ssid_val s.wifi.security_type s.password
        k.ETH_ALEN s.wifi.ssid_len s.wifi.password_len s.wifi.key_id
  let ret : Int :=
    match bssid with
    | none =>
      o.wifi_connect s.trace s.wifi.ssid_val s.wifi.security_type s.password
        s.wifi.ssid_len s.wifi.password_len s.wifi.key_id
    | some b =>
      o.wifi_connect_bssid s.trace b s.wifi.ssid_val s.wifi.security_type s.password
        k.ETH_ALEN s.wifi.ssid_len s.wifi.password_len s.wifi.key_id
  let s1 := s.log call
  if ret = k.RTW_SUCCESS then
    let dhcpRet := o.LwIP_DHCP s1.trace 0 k.DHCP_START
    let s2 := s1.log (Call.LwIP_DHCP 0 k.DHCP_START)
    if dhcpRet = k.DHCP_ADDRESS_ASSIGNED then
      (true, s2)
    else
      (false, s2.log Call.wifi_disconnect)
  else
    (false, s1)

/-- Embedding of `WiFiClass::begin(const char *ssid, const char *passphrase,
int32_t channel, const uint8_t *bssid, bool connect)`. -/
def begin (k : Sdk) (o : Oracle) (s : State) (ssid passphrase : Option (List Nat))
    (channel : Int) (bssid : Option (List Nat)) (connect : Bool) : Nat × State :=
  let en := o.enableSTA s.trace true
  let s0 := s.log (Call.enableSTA true)
  if !en then
    (k.WL_CONNECT_FAILED, s0)
  else
    match ssid with
    | none => (k.WL_CONNECT_FAILED, s0)
    | some sm =>
      if sm.headD 0 = 0 ∨ strlen sm > 32 then
        (k.WL_CONNECT_FAILED, s0)
      else if (match passphrase with
               | none => false
               | some pm => decide (strlen pm > 64)) then
        (k.WL_CONNECT_FAILED, s0)
      else
        let w1 : rtw_network_info_t :=
          { s0.wifi with
            bssid := memset s0.wifi.bssid 0 k.ETH_ALEN
            ssid_val := strcpy s0.wifi.ssid_val sm
            ssid_len := strlen sm
            security_type := k.RTW_SECURITY_OPEN
            password := PasswordPtr.null
            password_len := 0
            key_id := 0 }
        let s1 : State := { s0 with wifi := w1 }
        let s2 : State :=
          match passphrase with
          | none => s1
          | some pm =>
            { s1 with
              sta_password := strcpy s1.sta_password pm
              wifi :=
                { s1.wifi with
                  security_type := k.RTW_SECURITY_WPA2_AES_PSK
                  password := PasswordPtr.sta_password
                  password_len := strlen pm } }
        let r := reconnect k o s2 bssid
        if r.1 then (k.WL_CONNECTED, r.2) else (k.WL_CONNECT_FAILED, r.2)

/-- Embedding of the overload `WiFiClass::begin(char *ssid, char *passphrase, ...)`,
which casts its arguments and forwards them. -/
def begin_char (k : Sdk) (o : Oracle) (s : State) (ssid passphrase : Option (List Nat))
    (channel : Int) (bssid : Option (List Nat)) (connect : Bool) : Nat × State :=
  begin k o s ssid passphrase channel bssid connect

/-- Embedding of `WiFiClass::config(IPAddress localIP, IPAddress gateway,
IPAddress subnet, IPAddress dns1, IPAddress dns2)`. -/
def config (o : Oracle) (s : State) (localIP gateway subnet dns1 dns2 : IPAddress) :
    Bool × State :=
  let en := o.enableSTA s.trace true
  let s0 := s.log (Call.enableSTA true)
  if !en then
    (false, s0)
  else
    let s1 := s0.log (Call.netif_set_addr localIP subnet gateway)
    let s2 := if dns1.o0 ≠ 0 then s1.log (Call.dns_setserver 0 dns1) else s1
    let s3 := if dns2.o0 ≠ 0 then s2.log (Call.dns_setserver 0 dns2) else s2
    (true, s3)

/-- Embedding of `WiFiClass::disconnect(bool wifiOff)`. -/
def disconnect (k : Sdk) (o : Oracle) (s : State) (wifiOff : Bool) : Bool × State :=
  let ret := o.wifi_disconnect s.trace
  let s1 := s.log Call.wifi_disconnect
  let s2 := if wifiOff then s1.log (Call.enableSTA false) else s1
  (decide (ret = k.RTW_SUCCESS), s2)

/-- Embedding of `WiFiClass::isConnected()`. -/
def isConnected (k : Sdk) (o : Oracle) (s : State) : Bool × State :=
  (decide (o.status s.trace = k.WL_CONNECTED), s.log Call.status)

/-- Subtraction of two `unsigned long` values. -/
def usub (a b : Nat) : Nat :=
  (a % 2 ^ 32 + (2 ^ 32 - b % 2 ^ 32)) % 2 ^ 32

/-- The `while` loop of `WiFiClass::waitForConnectResult`. One unit of fuel is
spent on every evaluation of the loop condition; `none` means that the fuel
did not suffice to leave the loop. -/
def waitLoop (k : Sdk) (o : Oracle) (start timeout : Nat) : Nat → State → Option State
  | 0, _ => none
  | fuel + 1, s =>
    let st1 := o.status s.trace
    let s1 := s.log Call.status
    if st1 = 0 then
      let now := o.millis s1.trace
      let s2 := s1.log Call.millis
      if usub now start < timeout then
        waitLoop k o start timeout fuel (s2.log (Call.delay 100))
      else
        some s2
    else
      let st2 := o.status s1.trace
      let s2 := s1.log Call.status
      if st2 ≥ k.WL_DISCONNECTED then
        let now := o.millis s2.trace
        let s3 := s2.log Call.millis
        if usub now start < timeout then
          waitLoop k o start timeout fuel (s3.log (Call.delay 100))
        else
          some s3
      else
        some s2

/-- Embedding of `WiFiClass::waitForConnectResult(unsigned long timeout)`. -/
def waitForConnectResult (k : Sdk) (o : Oracle) (fuel : Nat) (s : State) (timeout : Nat) :
    Option (Nat × State) :=
  if o.wifi_mode s.trace &&& k.WIFI_MODE_STA = 0 then
    some (k.WL_DISCONNECTED, s)
  else
    let start := o.millis s.trace
    let s1 := s.log Call.millis
    match waitLoop k o start timeout fuel s1 with
    | none => none
    | some s2 => some (o.status s2.trace, s2.log Call.status)

/-- Embedding of `WiFiClass::SSID()`; the result is the content of the returned
`String`. -/
def SSID (k : Sdk) (o : Oracle) (s : State) : List Nat × State :=
  let c := isConnected k o s
  if !c.1 then
    ([], c.2)
  else
    let setting_ssid := o.wifi_get_setting c.2.trace
    (cstr setting_ssid, c.2.log Call.wifi_get_setting)

/-- Embedding of `WiFiClass::psk()`; the result is the content of the returned
`String`. -/
def psk (k : Sdk) (o : Oracle) (s : State) : List Nat × State :=
  let c := isConnected k o s
  if !c.1 then
    ([], c.2)
  else
    match c.2.password with
    | none => ([], c.2)
    | some m => (cstr m, c.2)

/-! ## boards/variants/cb3s.h -/

namespace cb3s

def PINS_COUNT : Nat := 14
def NUM_DIGITAL_PINS : Nat := 14
def NUM_ANALOG_INPUTS : Nat := 1
def NUM_ANALOG_OUTPUTS : Nat := 6
def PINS_GPIO_MAX : Nat := 26

def PIN_WIRE1_SCL : Nat := 20
def PIN_WIRE1_SDA_0 : Nat := 21
def PIN_WIRE1_SDA_1 : Nat := 21

def PIN_SERIAL1_RX : Nat := 10
def PIN_SERIAL1_TX : Nat := 11
def PIN_SERIAL2_TX : Nat := 0

def PIN_ADC3 : Nat := 23
def PIN_P0 : Nat := 0
def PIN_P6 : Nat := 6
def PIN_P7 : Nat := 7
def PIN_P8 : Nat := 8
def PIN_P9 : Nat := 9
def PIN_P10 : Nat := 10
def PIN_P11 : Nat := 11
def PIN_P14 : Nat := 14
def PIN_P20 : Nat := 20
def PIN_P21 : Nat := 21
def PIN_P22 : Nat := 22
def PIN_P23 : Nat := 23
def PIN_P24 : Nat := 24
def PIN_P26 : Nat := 26
def PIN_PWM0 : Nat := 6
def PIN_PWM1 : Nat := 7
def PIN_PWM2 : Nat := 8
def PIN_PWM3 : Nat := 9
def PIN_PWM4 : Nat := 24
def PIN_PWM5 : Nat := 26
def PIN_RX1 : Nat := 10
def PIN_SCK : Nat := 14
def PIN_SCL1 : Nat := 20
def PIN_SCL2 : Nat := 0
def PIN_SDA1 : Nat := 21
def PIN_TX1 : Nat := 11
def PIN_TX2 : Nat := 0

def HAS_SERIAL1 : Nat := 1
def HAS_SERIAL2 : Nat := 1
def HAS_WIRE1 : Nat := 1
def SERIAL_INTERFACES_COUNT : Nat := 2
def WIRE_INTERFACES_COUNT : Nat := 1

def PIN_D0 : Nat := 23
def PIN_D1 : Nat := 14
def PIN_D2 : Nat := 26
def PIN_D3 : Nat := 24
def PIN_D4 : Nat := 6
def PIN_D5 : Nat := 9
def PIN_D6 : Nat := 0
def PIN_D7 : Nat := 21
def PIN_D8 : Nat := 8
def PIN_D9 : Nat := 7
def PIN_D10 : Nat := 10
def PIN_D11 : Nat := 11
def PIN_D12 : Nat := 22
def PIN_D13 : Nat := 20
def PIN_A0 : Nat := 23

/-- Initialisation of a `static const unsigned char` from a macro value. -/
def toUChar (v : Nat) : Nat := v % 256

def A0 : Nat := toUChar PIN_A0
def D0 : Nat := toUChar PIN_D0
def D1 : Nat := toUChar PIN_D1
def D2 : Nat := toUChar PIN_D2
def D3 : Nat := toUChar PIN_D3
def D4 : Nat := toUChar PIN_D4
def D5 : Nat := toUChar PIN_D5
def D6 : Nat := toUChar PIN_D6
def D7 : Nat := toUChar PIN_D7
def D8 : Nat := toUChar PIN_D8
def D9 : Nat := toUChar PIN_D9
def D10 : Nat := toUChar PIN_D10
def D11 : Nat := toUChar PIN_D11
def D12 : Nat := toUChar PIN_D12
def D13 : Nat := toUChar PIN_D13

/-- The macros `PIN_D0` .. `PIN_D13`, entry `n` being `PIN_Dn`. -/
def arduinoPins : List Nat :=
  [PIN_D0, PIN_D1, PIN_D2, PIN_D3, PIN_D4, PIN_D5, PIN_D6, PIN_D7, PIN_D8, PIN_D9,
   PIN_D10, PIN_D11, PIN_D12, PIN_D13]

/-- The static constants `D0` .. `D13`, entry `n` being `Dn`. -/
def staticPins : List Nat :=
  [D0, D1, D2, D3, D4, D5, D6, D7, D8, D9, D10, D11, D12, D13]

/-- The macros `PIN_Pn`, each paired with the number `n` in its name. -/
def gpioPins : List (Nat × Nat) :=
  [(0, PIN_P0), (6, PIN_P6), (7, PIN_P7), (8, PIN_P8), (9, PIN_P9), (10, PIN_P10),
   (11, PIN_P11), (14, PIN_P14), (20, PIN_P20), (21, PIN_P21), (22, PIN_P22),
   (23, PIN_P23), (24, PIN_P24), (26, PIN_P26)]

/-- The macros `PIN_PWMn`. -/
def pwmPins : List Nat :=
  [PIN_PWM0, PIN_PWM1, PIN_PWM2, PIN_PWM3, PIN_PWM4, PIN_PWM5]

/-- The macros `PIN_ADCn`. -/
def adcPins : List Nat :=
  [PIN_ADC3]

/-- The peripheral function pins of the board. -/
def functionPins : List Nat :=
  pwmPins ++ [PIN_ADC3, PIN_SERIAL1_RX, PIN_SERIAL1_TX, PIN_SERIAL2_TX, PIN_WIRE1_SCL,
    PIN_WIRE1_SDA_0, PIN_WIRE1_SDA_1, PIN_SCK]

end cb3s

/-! ## Vocabulary of the statements -/

/-- Calls recorded in `s2` after those of `s1`. -/
def callsSince (s1 s2 : State) : List Call :=
  s2.trace.drop s1.trace.length

/-- Recognise `wifi_connect` and `wifi_connect_bssid`. -/
def Call.isConnect : Call → Bool
  | Call.wifi_connect _ _ _ _ _ _ => true
  | Call.wifi_connect_bssid _ _ _ _ _ _ _ _ => true
  | _ => false

/-- Recognise `delay`. -/
def Call.isDelay : Call → Bool
  | Call.delay _ => true
  | _ => false

/-- Number of `delay` calls in a trace. -/
def delayCount (tr : List Call) : Nat :=
  tr.countP Call.isDelay

/-- The connect call that `reconnect` makes in state `s`: `wifi_connect` for a
null `bssid`, `wifi_connect_bssid` otherwise. -/
def connectCall (k : Sdk) (s : State) (bssid : Option (List Nat)) : Call :=
  match bssid with
  | none =>
    Call.wifi_connect s.wifi.ssid_val s.wifi.security_type s.password
      s.wifi.ssid_len s.wifi.password_len s.wifi.key_id
  | some b =>
    Call.wifi_connect_bssid b s.wifi.ssid_val s.wifi.security_type s.password
      k.ETH_ALEN s.wifi.ssid_len s.wifi.password_len s.wifi.key_id

/-- The value the driver returns from that connect call. -/
def connectAnswer (k : Sdk) (o : Oracle) (s : State) (bssid : Option (List Nat)) : Int :=
  match bssid with
  | none =>
    o.wifi_connect s.trace s.wifi.ssid_val s.wifi.security_type s.password
      s.wifi.ssid_len s.wifi.password_len s.wifi.key_id
  | some b =>
    o.wifi_connect_bssid s.trace b s.wifi.ssid_val s.wifi.security_type s.password
      k.ETH_ALEN s.wifi.ssid_len s.wifi.password_len s.wifi.key_id

/-- Server stored in slot `n` of the resolver after the calls of `tr`:
`dns_setserver(numdns, addr)` stores `addr` in slot `numdns`. -/
def dnsServer (tr : List Call) (n : Nat) : Option IPAddress :=
  tr.foldl
    (fun acc c =>
      match c with
      | Call.dns_setserver m a => if m = n then some a else acc
      | _ => acc)
    none

/-- The globals at the moment a `begin` whose arguments passed validation
enters `reconnect`, field by field: the name and its length copied, the address
cleared, key index 0, and the security fields chosen by whether a passphrase
was given. `begin_accept` shows that the code produces exactly this state. -/
def storedState (k : Sdk) (s : State) (sm : List Nat) (passphrase : Option (List Nat)) :
    State where
  wifi :=
    { ssid_len := strlen sm
      ssid_val := strcpy s.wifi.ssid_val sm
      bssid := memset s.wifi.bssid 0 k.ETH_ALEN
      security_type :=
        if passphrase.isSome then k.RTW_SECURITY_WPA2_AES_PSK else k.RTW_SECURITY_OPEN
      password := if passphrase.isSome then PasswordPtr.sta_password else PasswordPtr.null
      password_len := (passphrase.map strlen).getD 0
      key_id := 0 }
  sta_password :=
    match passphrase with
    | none => s.sta_password
    | some pm => strcpy s.sta_password pm
  trace := s.trace ++ [Call.enableSTA true]

/-- The settings as the driver reads them: strings up to their terminator, the
password through the pointer `wifi.password`. -/
def driverView (s : State) :
    List Nat × Nat × List Nat × Nat × Option (List Nat) × Nat × Nat :=
  (cstr s.wifi.ssid_val, s.wifi.ssid_len, s.wifi.bssid, s.wifi.security_type,
    s.password.map cstr, s.wifi.password_len, s.wifi.key_id)

/-- The methods embedded above other than `begin`, with their arguments. -/
inductive Method where
  | config (localIP gateway subnet dns1 dns2 : IPAddress)
  | reconnect (bssid : Option (List Nat))
  | disconnect (wifiOff : Bool)
  | isConnected
  | waitForConnectResult (fuel timeout : Nat)
  | SSID
  | psk
deriving Repr

/-- The globals and the trace after a call of the method, `none` when the call
does not return within its fuel. -/
def Method.run (k : Sdk) (o : Oracle) : Method → State → Option State
  | Method.config localIP gateway subnet dns1 dns2, s =>
    some (LibreTiny.config o s localIP gateway subnet dns1 dns2).2
  | Method.reconnect bssid, s => some (LibreTiny.reconnect k o s bssid).2
  | Method.disconnect wifiOff, s => some (LibreTiny.disconnect k o s wifiOff).2
  | Method.isConnected, s => some (LibreTiny.isConnected k o s).2
  | Method.waitForConnectResult fuel timeout, s =>
    (LibreTiny.waitForConnectResult k o fuel s timeout).map Prod.snd
  | Method.SSID, s => some (LibreTiny.SSID k o s).2
  | Method.psk, s => some (LibreTiny.psk k o s).2

/-- A sequence of calls of these methods, one after the other. -/
def runAll (k : Sdk) (o : Oracle) : List Method → State → Option State
  | [], s => some s
  | m :: ms, s =>
    match m.run k o s with
    | none => none
    | some s1 => runAll k o ms s1

/-! ## Concrete data for evaluation -/

/-- Values of the constants in the headers of the realtek-ambz SDK and of the
Arduino core, used where a statement is evaluated on concrete data. -/
def ambz : Sdk where
  WL_CONNECTED := 3
  WL_CONNECT_FAILED := 4
  WL_DISCONNECTED := 6
  RTW_SUCCESS := 0
  RTW_SECURITY_OPEN := 0
  RTW_SECURITY_WPA2_AES_PSK := 4194308
  ETH_ALEN := 6
  DHCP_START := 0
  DHCP_ADDRESS_ASSIGNED := 2
  WIFI_MODE_STA := 1

/-- Zero-initialised globals, no call made yet. -/
def boot : State where
  wifi :=
    { ssid_len := 0
      ssid_val := List.replicate 33 0
      bssid := List.replicate 6 0
      security_type := 0
      password := PasswordPtr.null
      password_len := 0
      key_id := 0 }
  sta_password := List.replicate 65 0
  trace := []

/-- A world in which everything succeeds: the station is connected, and the
clock starts 96 ms before the end of its range and advances by 100 ms with
every `delay`. -/
def goodOracle : Oracle where
  enableSTA := fun _ _ => true
  wifi_connect := fun _ _ _ _ _ _ _ => 0
  wifi_connect_bssid := fun _ _ _ _ _ _ _ _ _ => 0
  LwIP_DHCP := fun _ _ _ => 2
  wifi_disconnect := fun _ => 0
  status := fun _ => 3
  millis := fun h => (4294967200 + 100 * delayCount h) % 2 ^ 32
  wifi_mode := fun _ => 1
  wifi_get_setting := fun _ => [110, 101, 116, 0]

/-- A world in which the driver refuses to connect and to disconnect. -/
def badOracle : Oracle where
  enableSTA := fun _ _ => false
  wifi_connect := fun _ _ _ _ _ _ _ => -1
  wifi_connect_bssid := fun _ _ _ _ _ _ _ _ _ => -1
  LwIP_DHCP := fun _ _ _ => 0
  wifi_disconnect := fun _ => -1
  status := fun _ => 6
  millis := fun h => (100 * delayCount h) % 2 ^ 32
  wifi_mode := fun _ => 0
  wifi_get_setting := fun _ => [0]

/-- A world in which station mode can be enabled once, at the very first call,
and never again, while the station reports being connected. -/
def flakyOracle : Oracle where
  enableSTA := fun h _ => h.isEmpty
  wifi_connect := fun _ _ _ _ _ _ _ => 0
  wifi_connect_bssid := fun _ _ _ _ _ _ _ _ _ => 0
  LwIP_DHCP := fun _ _ _ => 2
  wifi_disconnect := fun _ => 0
  status := fun _ => 3
  millis := fun h => (100 * delayCount h) % 2 ^ 32
  wifi_mode := fun _ => 1
  wifi_get_setting := fun _ => [110, 101, 116, 0]

/-- A world in which the driver connects but DHCP assigns no address. -/
def noLeaseOracle : Oracle where
  enableSTA := fun _ _ => true
  wifi_connect := fun _ _ _ _ _ _ _ => 0
  wifi_connect_bssid := fun _ _ _ _ _ _ _ _ _ => 0
  LwIP_DHCP := fun _ _ _ => 1
  wifi_disconnect := fun _ => 0
  status := fun _ => 6
  millis := fun h => (100 * delayCount h) % 2 ^ 32
  wifi_mode := fun _ => 1
  wifi_get_setting := fun _ => [0]

/-- The address 192.168.1.50. -/
def ipLocal : IPAddress := ⟨192, 168, 1, 50⟩

/-- The address 192.168.1.1. -/
def ipGateway : IPAddress := ⟨192, 168, 1, 1⟩

/-- The mask 255.255.255.0. -/
def ipSubnet : IPAddress := ⟨255, 255, 255, 0⟩

/-- The address 8.8.8.8. -/
def ipDns1 : IPAddress := ⟨8, 8, 8, 8⟩

/-- The address 1.1.1.1. -/
def ipDns2 : IPAddress := ⟨1, 1, 1, 1⟩

/-- The string "net", with its terminator. -/
def netSsid : List Nat := [110, 101, 116, 0]

/-- The string "old", with its terminator. -/
def oldPass : List Nat := [111, 108, 100, 0]

/-- The string "new", with its terminator. -/
def newPass : List Nat := [110, 101, 119, 0]

/-- A name of exactly 32 characters, with its terminator. -/
def ssid32 : List Nat := List.replicate 32 97 ++ [0]

/-- A name of 33 characters, with its terminator. -/
def ssid33 : List Nat := List.replicate 33 97 ++ [0]

/-- A passphrase of exactly 64 characters, with its terminator. -/
def pass64 : List Nat := List.replicate 64 98 ++ [0]

/-- The globals after `begin("net", "old")` on the zero-initialised globals in
the world `flakyOracle`; station mode is enabled and the call connects. -/
def firstBegin : Nat × State :=
  begin ambz flakyOracle boot (some netSsid) (some oldPass) 0 none true

/-- The globals after a following `begin("net", "new")` in the same world;
this time `enableSTA(true)` fails. -/
def secondBegin : Nat × State :=
  begin ambz flakyOracle firstBegin.2 (some netSsid) (some newPass) 0 none true

/-- The globals and the trace after `disconnect(false)`, `reconnect(NULL)` and
`SSID()` have followed the first `begin`. -/
def laterState : State :=
  (SSID ambz flakyOracle
    (reconnect ambz flakyOracle (disconnect ambz flakyOracle firstBegin.2 false).2 none).2).2

/-! ## Strings and traces -/

theorem cstr_append_zero (a rest : List Nat) (h : ∀ b ∈ a, b ≠ 0) :
    cstr (a ++ 0 :: rest) = a := by
  induction a with
  | nil => simp [cstr]
  | cons x xs ih =>
    have hx : x ≠ 0 := h x (by simp)
    have hxs : ∀ b ∈ xs, b ≠ 0 := fun b hb => h b (by simp [hb])
    have := ih hxs
    simp only [cstr] at this ⊢
    simp [List.takeWhile_cons, hx, this]

theorem cstr_nonzero (m : List Nat) : ∀ b ∈ cstr m, b ≠ 0 := by
  intro b hb
  have := List.mem_takeWhile_imp hb
  simpa using this

theorem cstr_strcpy (dst src : List Nat) : cstr (strcpy dst src) = cstr src := by
  unfold strcpy
  exact cstr_append_zero _ _ (cstr_nonzero src)

theorem strlen_eq_zero_iff (m : List Nat) : strlen m = 0 ↔ m.headD 0 = 0 := by
  cases m with
  | nil => simp [strlen, cstr]
  | cons x xs =>
    by_cases hx : x = 0
    · simp [strlen, cstr, List.takeWhile_cons, hx]
    · simp [strlen, cstr, List.takeWhile_cons, hx]

theorem strcpy_length (dst src : List Nat) (h : strlen src + 1 ≤ dst.length) :
    (strcpy dst src).length = dst.length := by
  simp only [strcpy, strlen, List.length_append, List.length_cons, List.length_drop] at *
  omega

theorem memset_all (dst : List Nat) (c n : Nat) (h : dst.length ≤ n) :
    memset dst c n = List.replicate n c := by
  simp [memset, List.drop_eq_nil_of_le h]

theorem callsSince_append (s1 s2 : State) (l : List Call) (h : s2.trace = s1.trace ++ l) :
    callsSince s1 s2 = l := by
  simp [callsSince, h]

/-! ## Unfolding lemmas for reconnect and begin -/

theorem reconnect_trace (k : Sdk) (o : Oracle) (s : State) (bssid : Option (List Nat)) :
    (reconnect k o s bssid).2.trace =
      s.trace ++ connectCall k s bssid ::
        (if connectAnswer k o s bssid = k.RTW_SUCCESS then
          Call.LwIP_DHCP 0 k.DHCP_START ::
            (if o.LwIP_DHCP (s.trace ++ [connectCall k s bssid]) 0 k.DHCP_START =
                k.DHCP_ADDRESS_ASSIGNED then [] else [Call.wifi_disconnect])
        else []) := by
  cases bssid <;>
    simp only [reconnect, connectCall, connectAnswer, State.log] <;>
    split_ifs <;> simp

theorem reconnect_result (k : Sdk) (o : Oracle) (s : State) (bssid : Option (List Nat)) :
    ((reconnect k o s bssid).1 = true ↔
      connectAnswer k o s bssid = k.RTW_SUCCESS ∧
      o.LwIP_DHCP (s.trace ++ [connectCall k s bssid]) 0 k.DHCP_START =
        k.DHCP_ADDRESS_ASSIGNED) := by
  cases bssid <;>
    simp only [reconnect, connectCall, connectAnswer, State.log] <;>
    split_ifs <;> simp_all

theorem reconnect_frame (k : Sdk) (o : Oracle) (s : State) (bssid : Option (List Nat)) :
    (reconnect k o s bssid).2.wifi = s.wifi ∧
    (reconnect k o s bssid).2.sta_password = s.sta_password := by
  cases bssid <;>
    simp only [reconnect, State.log] <;>
    split_ifs <;> simp

theorem reconnect_connect_count (k : Sdk) (o : Oracle) (s : State)
    (bssid : Option (List Nat)) (pre : List Call) (hpre : pre.countP Call.isConnect = 0) :
    ((pre ++ callsSince s (reconnect k o s bssid).2)).countP Call.isConnect = 1 := by
  have hc : (connectCall k s bssid).isConnect = true := by
    cases bssid <;> rfl
  rw [callsSince_append s _ _ (reconnect_trace k o s bssid)]
  rw [List.countP_append, hpre, List.countP_cons_of_pos _ _ hc]
  split_ifs <;> simp [Call.isConnect]

theorem begin_no_sta (k : Sdk) (o : Oracle) (s : State) (ssid passphrase : Option (List Nat))
    (channel : Int) (bssid : Option (List Nat)) (connect : Bool)
    (hen : o.enableSTA s.trace true = false) :
    begin k o s ssid passphrase channel bssid connect =
      (k.WL_CONNECT_FAILED, s.log (Call.enableSTA true)) := by
  simp [begin, hen]

theorem begin_bad_ssid (k : Sdk) (o : Oracle) (s : State) (ssid passphrase : Option (List Nat))
    (channel : Int) (bssid : Option (List Nat)) (connect : Bool)
    (hbad : ∀ sm, ssid = some sm → strlen sm = 0 ∨ 32 < strlen sm) :
    begin k o s ssid passphrase channel bssid connect =
      (k.WL_CONNECT_FAILED, s.log (Call.enableSTA true)) := by
  cases ssid with
  | none => simp [begin]
  | some sm =>
    have h := hbad sm rfl
    rw [strlen_eq_zero_iff] at h
    simp only [begin]
    split_ifs <;> rfl

theorem begin_bad_passphrase (k : Sdk) (o : Oracle) (s : State)
    (ssid : Option (List Nat)) (pm : List Nat)
    (channel : Int) (bssid : Option (List Nat)) (connect : Bool)
    (hbad : 64 < strlen pm) :
    begin k o s ssid (some pm) channel bssid connect =
      (k.WL_CONNECT_FAILED, s.log (Call.enableSTA true)) := by
  cases ssid with
  | none => simp [begin]
  | some sm =>
    simp only [begin]
    split_ifs <;> first | rfl | simp_all

theorem begin_accept (k : Sdk) (o : Oracle) (s : State) (sm : List Nat)
    (passphrase : Option (List Nat)) (channel : Int) (bssid : Option (List Nat))
    (connect : Bool) (hen : o.enableSTA s.trace true = true)
    (h1 : 1 ≤ strlen sm) (h2 : strlen sm ≤ 32)
    (hp : ∀ pm, passphrase = some pm → strlen pm ≤ 64) :
    begin k o s (some sm) passphrase channel bssid connect =
      (if (reconnect k o (storedState k s sm passphrase) bssid).1 then k.WL_CONNECTED
        else k.WL_CONNECT_FAILED,
       (reconnect k o (storedState k s sm passphrase) bssid).2) := by
  have hh : ¬ (sm.headD 0 = 0) := by
    rw [← strlen_eq_zero_iff]
    omega
  have hh2 : ¬ (sm.head?.getD 0 = 0) := by simpa using hh
  cases passphrase with
  | none =>
    simp only [begin, hen, storedState, State.log]
    simp [hh2, Nat.not_lt.mpr h2]
    split_ifs <;> rfl
  | some pm =>
    have hpm := hp pm rfl
    simp only [begin, hen, storedState, State.log]
    simp [hh2, Nat.not_lt.mpr h2, Nat.not_lt.mpr hpm]
    split_ifs <;> rfl

/-! ## The cb3s pin table -/

/-- C6: in the cb3s table the map from D0..D13 to GPIO numbers is injective, has
exactly PINS_COUNT = NUM_DIGITAL_PINS = 14 entries, every mapped GPIO number is
at most PINS_GPIO_MAX = 26 and the largest one is exactly 26, and each static
constant D0..D13 and A0 equals the corresponding PIN_Dn / PIN_A0 macro. -/
theorem cb3s_pin_mapping :
    cb3s.arduinoPins.Nodup ∧
    cb3s.arduinoPins.length = cb3s.PINS_COUNT ∧
    cb3s.PINS_COUNT = cb3s.NUM_DIGITAL_PINS ∧
    cb3s.NUM_DIGITAL_PINS = 14 ∧
    (∀ g ∈ cb3s.arduinoPins, g ≤ cb3s.PINS_GPIO_MAX) ∧
    cb3s.PINS_GPIO_MAX = 26 ∧
    cb3s.arduinoPins.max? = some 26 ∧
    cb3s.staticPins = cb3s.arduinoPins ∧
    cb3s.A0 = cb3s.PIN_A0 := by
  decide

/-- C7: the cb3s table is internally consistent: the PIN_Pn macros name the same
set of GPIO numbers as PIN_D0..PIN_D13 and PIN_Pn has value n; every peripheral
function pin is one of those GPIOs; NUM_ANALOG_OUTPUTS = 6 is the number of
PIN_PWMn macros, which are pairwise distinct; NUM_ANALOG_INPUTS = 1 is the
number of PIN_ADCn macros and PIN_A0 = PIN_ADC3 = PIN_D0; the interface counts
are the sums of the HAS_ flags. -/
theorem cb3s_table_consistent :
    (∀ g ∈ cb3s.gpioPins.map Prod.snd, g ∈ cb3s.arduinoPins) ∧
    (∀ g ∈ cb3s.arduinoPins, g ∈ cb3s.gpioPins.map Prod.snd) ∧
    (∀ p ∈ cb3s.gpioPins, p.2 = p.1) ∧
    (∀ g ∈ cb3s.functionPins, g ∈ cb3s.arduinoPins) ∧
    cb3s.NUM_ANALOG_OUTPUTS = 6 ∧
    cb3s.pwmPins.length = cb3s.NUM_ANALOG_OUTPUTS ∧
    cb3s.pwmPins.Nodup ∧
    cb3s.NUM_ANALOG_INPUTS = 1 ∧
    cb3s.adcPins.length = cb3s.NUM_ANALOG_INPUTS ∧
    cb3s.PIN_A0 = cb3s.PIN_ADC3 ∧
    cb3s.PIN_ADC3 = cb3s.PIN_D0 ∧
    cb3s.SERIAL_INTERFACES_COUNT = cb3s.HAS_SERIAL1 + cb3s.HAS_SERIAL2 ∧
    cb3s.WIRE_INTERFACES_COUNT = cb3s.HAS_WIRE1 := by
  decide

/-! ## disconnect, config, reconnect -/

/-- C5: disconnect(wifiOff) returns true exactly when wifi_disconnect returned
RTW_SUCCESS, whatever wifiOff is and whatever enableSTA(false) returns;
wifi_disconnect is called exactly once, first, and enableSTA(false) is called
after it exactly when wifiOff is true. -/
theorem disconnect_spec (k : Sdk) (o : Oracle) (s : State) (wifiOff : Bool) :
    ((disconnect k o s wifiOff).1 = true ↔ o.wifi_disconnect s.trace = k.RTW_SUCCESS) ∧
    callsSince s (disconnect k o s wifiOff).2 =
      Call.wifi_disconnect :: (if wifiOff then [Call.enableSTA false] else []) ∧
    (callsSince s (disconnect k o s wifiOff).2).count Call.wifi_disconnect = 1 ∧
    (Call.enableSTA false ∈ callsSince s (disconnect k o s wifiOff).2 ↔ wifiOff = true) ∧
    (disconnect k o s wifiOff).2.wifi = s.wifi ∧
    (disconnect k o s wifiOff).2.sta_password = s.sta_password := by
  cases wifiOff <;> simp [disconnect, State.log, callsSince]

theorem disconnect_spec_witness :
    (disconnect ambz badOracle boot true).1 = false ∧
    callsSince boot (disconnect ambz badOracle boot true).2 =
      [Call.wifi_disconnect, Call.enableSTA false] ∧
    (disconnect ambz goodOracle boot false).1 = true ∧
    callsSince boot (disconnect ambz goodOracle boot false).2 = [Call.wifi_disconnect] :=
  ⟨by decide, (disconnect_spec ambz badOracle boot true).2.1,
    (disconnect_spec ambz goodOracle boot false).1.mpr rfl,
    (disconnect_spec ambz goodOracle boot false).2.1⟩

/-- C9: config returns false without calling netif_set_addr or dns_setserver
when enableSTA(true) fails; otherwise it returns true after one call
netif_set_addr(localIP, subnet, gateway), followed by dns_setserver(0, dns1)
iff the first octet of dns1 is non-zero, followed by dns_setserver(0, dns2) iff
the first octet of dns2 is non-zero. Only slot 0 is ever written, and when both
servers are set slot 0 ends up holding dns2. -/
theorem config_spec (o : Oracle) (s : State) (localIP gateway subnet dns1 dns2 : IPAddress) :
    (o.enableSTA s.trace true = false →
      (config o s localIP gateway subnet dns1 dns2).1 = false ∧
      callsSince s (config o s localIP gateway subnet dns1 dns2).2 = [Call.enableSTA true]) ∧
    (o.enableSTA s.trace true = true →
      (config o s localIP gateway subnet dns1 dns2).1 = true ∧
      callsSince s (config o s localIP gateway subnet dns1 dns2).2 =
        [Call.enableSTA true, Call.netif_set_addr localIP subnet gateway] ++
          (if dns1.o0 ≠ 0 then [Call.dns_setserver 0 dns1] else []) ++
          (if dns2.o0 ≠ 0 then [Call.dns_setserver 0 dns2] else []) ∧
      (dns2.o0 ≠ 0 →
        dnsServer (config o s localIP gateway subnet dns1 dns2).2.trace 0 = some dns2) ∧
      (dns1.o0 ≠ 0 → dns2.o0 = 0 →
        dnsServer (config o s localIP gateway subnet dns1 dns2).2.trace 0 = some dns1)) ∧
    (∀ n a, Call.dns_setserver n a ∈ callsSince s (config o s localIP gateway subnet dns1 dns2).2 →
      n = 0) ∧
    (∀ n, n ≠ 0 →
      dnsServer (config o s localIP gateway subnet dns1 dns2).2.trace n = dnsServer s.trace n) ∧
    (config o s localIP gateway subnet dns1 dns2).2.wifi = s.wifi ∧
    (config o s localIP gateway subnet dns1 dns2).2.sta_password = s.sta_password := by
  have hne : ∀ n : Nat, n ≠ 0 → ¬ (0 = n) := fun n hn h => hn h.symm
  refine ⟨?_, ?_, ?_, ?_, ?_, ?_⟩
  · intro hen
    simp [config, State.log, callsSince, hen]
  · intro hen
    by_cases h1 : dns1.o0 = 0 <;> by_cases h2 : dns2.o0 = 0 <;>
      simp [config, State.log, callsSince, dnsServer, hen, h1, h2, List.foldl_append]
  · intro n a
    cases hen : o.enableSTA s.trace true <;>
      by_cases h1 : dns1.o0 = 0 <;> by_cases h2 : dns2.o0 = 0 <;>
      simp [config, State.log, callsSince, hen, h1, h2] <;>
      intro h <;>
      first
        | exact fun _ => h
        | exact h.elim (fun x => x.1) (fun x => x.1)
  · intro n hn
    have hn2 := hne n hn
    cases hen : o.enableSTA s.trace true <;>
      by_cases h1 : dns1.o0 = 0 <;> by_cases h2 : dns2.o0 = 0 <;>
      simp [config, State.log, dnsServer, hen, h1, h2, hn2, List.foldl_append]
  · cases hen : o.enableSTA s.trace true <;>
      by_cases h1 : dns1.o0 = 0 <;> by_cases h2 : dns2.o0 = 0 <;>
      simp [config, State.log, hen, h1, h2]
  · cases hen : o.enableSTA s.trace true <;>
      by_cases h1 : dns1.o0 = 0 <;> by_cases h2 : dns2.o0 = 0 <;>
      simp [config, State.log, hen, h1, h2]

theorem config_spec_witness :
    goodOracle.enableSTA boot.trace true = true ∧
    callsSince boot (config goodOracle boot ipLocal ipGateway ipSubnet ipDns1 ipDns2).2 =
      [Call.enableSTA true, Call.netif_set_addr ipLocal ipSubnet ipGateway,
        Call.dns_setserver 0 ipDns1, Call.dns_setserver 0 ipDns2] ∧
    dnsServer (config goodOracle boot ipLocal ipGateway ipSubnet ipDns1 ipDns2).2.trace 0 =
      some ipDns2 :=
  ⟨rfl, ((config_spec goodOracle boot ipLocal ipGateway ipSubnet ipDns1 ipDns2).2.1 rfl).2.1,
    ((config_spec goodOracle boot ipLocal ipGateway ipSubnet ipDns1 ipDns2).2.1 rfl).2.2.1
      (by decide)⟩

/-- C4: reconnect returns true exactly when the connect call (wifi_connect for
a null bssid, wifi_connect_bssid with the given bssid and length ETH_ALEN
otherwise, made once with the stored settings) returned RTW_SUCCESS and
LwIP_DHCP(0, DHCP_START) then returned DHCP_ADDRESS_ASSIGNED. If the connect
call fails nothing else is called; if it succeeds and DHCP assigns no address,
wifi_disconnect is called once, last; if both succeed wifi_disconnect is not
called. -/
theorem reconnect_spec (k : Sdk) (o : Oracle) (s : State) (bssid : Option (List Nat)) :
    ((reconnect k o s bssid).1 = true ↔
      connectAnswer k o s bssid = k.RTW_SUCCESS ∧
      o.LwIP_DHCP (s.trace ++ [connectCall k s bssid]) 0 k.DHCP_START =
        k.DHCP_ADDRESS_ASSIGNED) ∧
    (callsSince s (reconnect k o s bssid).2).head? = some (connectCall k s bssid) ∧
    (callsSince s (reconnect k o s bssid).2).countP Call.isConnect = 1 ∧
    (connectAnswer k o s bssid ≠ k.RTW_SUCCESS →
      callsSince s (reconnect k o s bssid).2 = [connectCall k s bssid]) ∧
    (connectAnswer k o s bssid = k.RTW_SUCCESS →
      o.LwIP_DHCP (s.trace ++ [connectCall k s bssid]) 0 k.DHCP_START ≠
        k.DHCP_ADDRESS_ASSIGNED →
      callsSince s (reconnect k o s bssid).2 =
        [connectCall k s bssid, Call.LwIP_DHCP 0 k.DHCP_START, Call.wifi_disconnect]) ∧
    (connectAnswer k o s bssid = k.RTW_SUCCESS →
      o.LwIP_DHCP (s.trace ++ [connectCall k s bssid]) 0 k.DHCP_START =
        k.DHCP_ADDRESS_ASSIGNED →
      callsSince s (reconnect k o s bssid).2 =
        [connectCall k s bssid, Call.LwIP_DHCP 0 k.DHCP_START]) ∧
    (bssid = none →
      connectCall k s bssid =
        Call.wifi_connect s.wifi.ssid_val s.wifi.security_type s.password
          s.wifi.ssid_len s.wifi.password_len s.wifi.key_id) ∧
    (∀ b, bssid = some b →
      connectCall k s bssid =
        Call.wifi_connect_bssid b s.wifi.ssid_val s.wifi.security_type s.password
          k.ETH_ALEN s.wifi.ssid_len s.wifi.password_len s.wifi.key_id) ∧
    (reconnect k o s bssid).2.wifi = s.wifi ∧
    (reconnect k o s bssid).2.sta_password = s.sta_password := by
  cases bssid with
  | none =>
    by_cases h1 : o.wifi_connect s.trace s.wifi.ssid_val s.wifi.security_type s.password
        s.wifi.ssid_len s.wifi.password_len s.wifi.key_id = k.RTW_SUCCESS <;>
    by_cases h2 : o.LwIP_DHCP (s.trace ++ [Call.wifi_connect s.wifi.ssid_val
        s.wifi.security_type s.password s.wifi.ssid_len s.wifi.password_len s.wifi.key_id])
        0 k.DHCP_START = k.DHCP_ADDRESS_ASSIGNED <;>
    simp [reconnect, connectCall, connectAnswer, State.log, callsSince, Call.isConnect, h1, h2]
  | some b =>
    by_cases h1 : o.wifi_connect_bssid s.trace b s.wifi.ssid_val s.wifi.security_type
        s.password k.ETH_ALEN s.wifi.ssid_len s.wifi.password_len s.wifi.key_id =
        k.RTW_SUCCESS <;>
    by_cases h2 : o.LwIP_DHCP (s.trace ++ [Call.wifi_connect_bssid b s.wifi.ssid_val
        s.wifi.security_type s.password k.ETH_ALEN s.wifi.ssid_len s.wifi.password_len
        s.wifi.key_id]) 0 k.DHCP_START = k.DHCP_ADDRESS_ASSIGNED <;>
    simp [reconnect, connectCall, connectAnswer, State.log, callsSince, Call.isConnect, h1, h2]

theorem reconnect_spec_witness :
    (reconnect ambz noLeaseOracle firstBegin.2 none).1 = false ∧
    callsSince firstBegin.2 (reconnect ambz noLeaseOracle firstBegin.2 none).2 =
      [connectCall ambz firstBegin.2 none, Call.LwIP_DHCP 0 ambz.DHCP_START,
        Call.wifi_disconnect] ∧
    callsSince firstBegin.2 (reconnect ambz goodOracle firstBegin.2 (some [1, 2, 3, 4, 5, 6])).2 =
      [connectCall ambz firstBegin.2 (some [1, 2, 3, 4, 5, 6]),
        Call.LwIP_DHCP 0 ambz.DHCP_START] :=
  ⟨by decide,
    (reconnect_spec ambz noLeaseOracle firstBegin.2 none).2.2.2.2.1 rfl (by decide),
    (reconnect_spec ambz goodOracle firstBegin.2 (some [1, 2, 3, 4, 5, 6])).2.2.2.2.2.1
      rfl rfl⟩

/-! ## begin -/

theorem begin_accept_calls (k : Sdk) (o : Oracle) (s : State) (sm : List Nat)
    (passphrase : Option (List Nat)) (channel : Int) (bssid : Option (List Nat))
    (connect : Bool) (hen : o.enableSTA s.trace true = true)
    (h1 : 1 ≤ strlen sm) (h2 : strlen sm ≤ 32)
    (hp : ∀ pm, passphrase = some pm → strlen pm ≤ 64) :
    callsSince s (begin k o s (some sm) passphrase channel bssid connect).2 =
      [Call.enableSTA true] ++
        callsSince (storedState k s sm passphrase)
          (reconnect k o (storedState k s sm passphrase) bssid).2 := by
  rw [begin_accept k o s sm passphrase channel bssid connect hen h1 h2 hp]
  have ht := reconnect_trace k o (storedState k s sm passphrase) bssid
  rw [callsSince_append (storedState k s sm passphrase) _ _ ht]
  apply callsSince_append
  rw [ht]
  simp [storedState]

theorem begin_reject_calls (k : Sdk) (s : State) :
    callsSince s (k.WL_CONNECT_FAILED, s.log (Call.enableSTA true)).2 = [Call.enableSTA true] := by
  simp [callsSince, State.log]

/-- C1: when enableSTA(true) succeeds and ssid is null, empty or longer than 32
bytes, or passphrase is non-null and longer than 64 bytes, begin returns
WL_CONNECT_FAILED, calls nothing but enableSTA (so neither wifi_connect,
wifi_connect_bssid nor LwIP_DHCP) and leaves wifi and sta_password as they
were; an ssid of 1 to 32 bytes with a passphrase that is null or of at most 64
bytes is not rejected: the connect call is made. -/
theorem begin_rejects_atomically (k : Sdk) (o : Oracle) (s : State)
    (ssid passphrase : Option (List Nat)) (channel : Int) (bssid : Option (List Nat))
    (connect : Bool) (hen : o.enableSTA s.trace true = true) :
    ((ssid = none ∨ (∃ sm, ssid = some sm ∧ strlen sm = 0) ∨
        (∃ sm, ssid = some sm ∧ 32 < strlen sm) ∨
        (∃ pm, passphrase = some pm ∧ 64 < strlen pm)) →
      (begin k o s ssid passphrase channel bssid connect).1 = k.WL_CONNECT_FAILED ∧
      callsSince s (begin k o s ssid passphrase channel bssid connect).2 =
        [Call.enableSTA true] ∧
      (begin k o s ssid passphrase channel bssid connect).2.wifi = s.wifi ∧
      (begin k o s ssid passphrase channel bssid connect).2.sta_password = s.sta_password) ∧
    (∀ sm, ssid = some sm → 1 ≤ strlen sm → strlen sm ≤ 32 →
      (∀ pm, passphrase = some pm → strlen pm ≤ 64) →
      (callsSince s (begin k o s ssid passphrase channel bssid connect).2).countP
        Call.isConnect = 1) := by
  constructor
  · intro hbad
    have hb : begin k o s ssid passphrase channel bssid connect =
        (k.WL_CONNECT_FAILED, s.log (Call.enableSTA true)) := by
      rcases hbad with h | ⟨sm, h, hl⟩ | ⟨sm, h, hl⟩ | ⟨pm, h, hl⟩
      · exact begin_bad_ssid k o s ssid passphrase channel bssid connect
          (fun sm hsm => by rw [h] at hsm; cases hsm)
      · exact begin_bad_ssid k o s ssid passphrase channel bssid connect
          (fun sm2 hsm => by rw [h] at hsm; cases hsm; exact Or.inl hl)
      · exact begin_bad_ssid k o s ssid passphrase channel bssid connect
          (fun sm2 hsm => by rw [h] at hsm; cases hsm; exact Or.inr hl)
      · rw [h]
        exact begin_bad_passphrase k o s ssid pm channel bssid connect hl
    rw [hb]
    exact ⟨rfl, begin_reject_calls k s, rfl, rfl⟩
  · intro sm hsm h1 h2 hp
    subst hsm
    rw [begin_accept_calls k o s sm passphrase channel bssid connect hen h1 h2 hp]
    exact reconnect_connect_count k o _ bssid [Call.enableSTA true] rfl

theorem begin_rejects_atomically_witness :
    goodOracle.enableSTA boot.trace true = true ∧
    32 < strlen ssid33 ∧
    (begin ambz goodOracle boot (some ssid33) (some pass64) 0 none true).1 =
      ambz.WL_CONNECT_FAILED ∧
    strlen ssid32 = 32 ∧
    strlen pass64 = 64 ∧
    (callsSince boot
      (begin ambz goodOracle boot (some ssid32) (some pass64) 0 none true).2).countP
        Call.isConnect = 1 :=
  ⟨rfl, by decide,
    ((begin_rejects_atomically ambz goodOracle boot (some ssid33) (some pass64) 0 none true
      rfl).1 (Or.inr (Or.inr (Or.inl ⟨ssid33, rfl, by decide⟩)))).1,
    by decide, by decide,
    (begin_rejects_atomically ambz goodOracle boot (some ssid32) (some pass64) 0 none true
      rfl).2 ssid32 rfl (by decide) (by decide)
      (fun pm h => by cases h; decide)⟩

/-- C2: begin returns only WL_CONNECTED or WL_CONNECT_FAILED, and WL_CONNECTED
exactly when enableSTA(true) succeeded, ssid is non-null with a length between
1 and 32, passphrase is null or at most 64 bytes long, the connect call
returned RTW_SUCCESS and LwIP_DHCP returned DHCP_ADDRESS_ASSIGNED. The char*
overload returns what the const char* overload returns. -/
theorem begin_result (k : Sdk) (o : Oracle) (s : State)
    (ssid passphrase : Option (List Nat)) (channel : Int) (bssid : Option (List Nat))
    (connect : Bool) (hk : k.WL_CONNECTED ≠ k.WL_CONNECT_FAILED) :
    ((begin k o s ssid passphrase channel bssid connect).1 = k.WL_CONNECTED ∨
      (begin k o s ssid passphrase channel bssid connect).1 = k.WL_CONNECT_FAILED) ∧
    ((begin k o s ssid passphrase channel bssid connect).1 = k.WL_CONNECTED ↔
      o.enableSTA s.trace true = true ∧
      ∃ sm, ssid = some sm ∧ 1 ≤ strlen sm ∧ strlen sm ≤ 32 ∧
        (∀ pm, passphrase = some pm → strlen pm ≤ 64) ∧
        connectAnswer k o (storedState k s sm passphrase) bssid = k.RTW_SUCCESS ∧
        o.LwIP_DHCP
            ((s.trace ++ [Call.enableSTA true]) ++
              [connectCall k (storedState k s sm passphrase) bssid])
            0 k.DHCP_START = k.DHCP_ADDRESS_ASSIGNED) ∧
    begin_char k o s ssid passphrase channel bssid connect =
      begin k o s ssid passphrase channel bssid connect := by
  have hfail : ∀ st : State,
      begin k o s ssid passphrase channel bssid connect = (k.WL_CONNECT_FAILED, st) →
      ((begin k o s ssid passphrase channel bssid connect).1 = k.WL_CONNECTED ∨
        (begin k o s ssid passphrase channel bssid connect).1 = k.WL_CONNECT_FAILED) ∧
      ¬ (begin k o s ssid passphrase channel bssid connect).1 = k.WL_CONNECTED := by
    intro st hst
    rw [hst]
    exact ⟨Or.inr rfl, fun h => hk h.symm⟩
  refine ⟨?_, ?_, rfl⟩
  · by_cases hen : o.enableSTA s.trace true = true
    · cases ssid with
      | none => exact (hfail _ (begin_bad_ssid k o s none passphrase channel bssid connect
          (fun sm h => by cases h))).1
      | some sm =>
        by_cases hs : strlen sm = 0 ∨ 32 < strlen sm
        · exact (hfail _ (begin_bad_ssid k o s (some sm) passphrase channel bssid connect
            (fun sm2 h => by cases h; exact hs))).1
        · by_cases hp : ∀ pm, passphrase = some pm → strlen pm ≤ 64
          · rw [begin_accept k o s sm passphrase channel bssid connect hen (by omega)
              (by omega) hp]
            by_cases hr : (reconnect k o (storedState k s sm passphrase) bssid).1 = true
            · simp [hr]
            · simp [hr]
          · push_neg at hp
            obtain ⟨pm, hpm, hl⟩ := hp
            subst hpm
            exact (hfail _ (begin_bad_passphrase k o s (some sm) pm channel bssid connect
              hl)).1
    · exact (hfail _ (begin_no_sta k o s ssid passphrase channel bssid connect
        (by simpa using hen))).1
  · by_cases hen : o.enableSTA s.trace true = true
    · cases ssid with
      | none =>
        have hf := (hfail _ (begin_bad_ssid k o s none passphrase channel bssid connect
          (fun sm h => by cases h))).2
        constructor
        · intro h
          exact absurd h hf
        · rintro ⟨_, sm, h, _⟩
          cases h
      | some sm =>
        by_cases hs : strlen sm = 0 ∨ 32 < strlen sm
        · have hf := (hfail _ (begin_bad_ssid k o s (some sm) passphrase channel bssid
            connect (fun sm2 h => by cases h; exact hs))).2
          constructor
          · intro h
            exact absurd h hf
          · rintro ⟨_, sm2, h, h1, h2, _⟩
            cases h
            omega
        · by_cases hp : ∀ pm, passphrase = some pm → strlen pm ≤ 64
          · rw [begin_accept k o s sm passphrase channel bssid connect hen (by omega)
              (by omega) hp]
            have hr := reconnect_result k o (storedState k s sm passphrase) bssid
            have htr : (storedState k s sm passphrase).trace =
                s.trace ++ [Call.enableSTA true] := rfl
            rw [htr] at hr
            constructor
            · intro h
              have hr1 : (reconnect k o (storedState k s sm passphrase) bssid).1 = true := by
                by_contra hne
                simp only [hne] at h
                exact hk h.symm
              exact ⟨hen, sm, rfl, by omega, by omega, hp, hr.mp hr1⟩
            · rintro ⟨_, sm2, h, _, _, _, ha, hd⟩
              cases h
              have hr1 := hr.mpr ⟨ha, hd⟩
              simp [hr1]
          · have hp2 := hp
            push_neg at hp2
            obtain ⟨pm, hpm, hl⟩ := hp2
            subst hpm
            have hf := (hfail _ (begin_bad_passphrase k o s (some sm) pm channel bssid
              connect hl)).2
            constructor
            · intro h
              exact absurd h hf
            · rintro ⟨_, sm2, h, _, _, hp3, _⟩
              exact absurd hp3 hp
    · have hf := (hfail _ (begin_no_sta k o s ssid passphrase channel bssid connect
        (by simpa using hen))).2
      constructor
      · intro h
        exact absurd h hf
      · rintro ⟨h, _⟩
        exact absurd h hen

theorem begin_result_witness :
    ambz.WL_CONNECTED ≠ ambz.WL_CONNECT_FAILED ∧
    ((begin ambz goodOracle boot (some netSsid) (some oldPass) 0 none true).1 =
        ambz.WL_CONNECTED ∨
      (begin ambz goodOracle boot (some netSsid) (some oldPass) 0 none true).1 =
        ambz.WL_CONNECT_FAILED) ∧
    (begin ambz goodOracle boot (some netSsid) (some oldPass) 0 none true).1 =
      ambz.WL_CONNECTED :=
  ⟨by decide,
    (begin_result ambz goodOracle boot (some netSsid) (some oldPass) 0 none true
      (by decide)).1,
    by decide⟩

theorem storedState_view (k : Sdk) (s : State) (sm : List Nat)
    (passphrase : Option (List Nat)) (hb : s.wifi.bssid.length = k.ETH_ALEN) :
    driverView (storedState k s sm passphrase) =
      (cstr sm, strlen sm, List.replicate k.ETH_ALEN 0,
        if passphrase.isSome then k.RTW_SECURITY_WPA2_AES_PSK else k.RTW_SECURITY_OPEN,
        passphrase.map cstr, (passphrase.map strlen).getD 0, 0) := by
  cases passphrase <;>
    simp [driverView, storedState, State.password, cstr_strcpy, memset_all _ _ _ (le_of_eq hb)]

theorem driverView_congr (a b : State) (hw : a.wifi = b.wifi)
    (hp : a.sta_password = b.sta_password) : driverView a = driverView b := by
  simp [driverView, State.password, hw, hp]

theorem connectCall_congr (k : Sdk) (a b : State) (bssid : Option (List Nat))
    (hw : a.wifi = b.wifi) (hp : a.sta_password = b.sta_password) :
    connectCall k a bssid = connectCall k b bssid := by
  cases bssid <;> simp [connectCall, State.password, hw, hp]

theorem mem_reconnect_calls (k : Sdk) (o : Oracle) (s : State) (bssid : Option (List Nat))
    (c : Call) (hc : c ∈ callsSince s (reconnect k o s bssid).2)
    (hi : c.isConnect = true) : c = connectCall k s bssid := by
  rw [callsSince_append s _ _ (reconnect_trace k o s bssid)] at hc
  rcases List.mem_cons.mp hc with h | h
  · exact h
  · exfalso
    have hrest : ∀ x ∈ [Call.LwIP_DHCP 0 k.DHCP_START, Call.wifi_disconnect],
        x.isConnect = false := by
      intro x hx
      rcases List.mem_cons.mp hx with hx | hx
      · rw [hx]; rfl
      · rw [List.mem_singleton.mp hx]; rfl
    have hc2 : c ∈ [Call.LwIP_DHCP 0 k.DHCP_START, Call.wifi_disconnect] := by
      split_ifs at h
      · exact List.mem_cons.mpr (Or.inl (List.mem_singleton.mp h))
      · exact h
      · cases h
    rw [hrest c hc2] at hi
    cases hi

/-- C3: for a begin whose arguments pass validation, whenever a connect call is
made the driver is handed the stored settings, and these are: wifi.ssid.val
holds the string ssid and wifi.ssid.len its length, wifi.bssid is all zero
whatever the bssid argument, wifi.key_id is 0; with a null passphrase the
security type is RTW_SECURITY_OPEN, the password pointer null and the password
length 0; with a non-null one (the empty string included) the security type is
RTW_SECURITY_WPA2_AES_PSK, the password points at a copy of passphrase and the
password length is its length. These settings do not depend on the globals
before the call, and when enableSTA(true) succeeds the connect call is made. -/
theorem begin_settings (k : Sdk) (o : Oracle) (s : State) (sm : List Nat)
    (passphrase : Option (List Nat)) (channel : Int) (bssid : Option (List Nat))
    (connect : Bool) (h1 : 1 ≤ strlen sm) (h2 : strlen sm ≤ 32)
    (hp : ∀ pm, passphrase = some pm → strlen pm ≤ 64)
    (hb : s.wifi.bssid.length = k.ETH_ALEN) :
    (∀ c ∈ callsSince s (begin k o s (some sm) passphrase channel bssid connect).2,
      c.isConnect = true →
        c = connectCall k (begin k o s (some sm) passphrase channel bssid connect).2 bssid ∧
        cstr (begin k o s (some sm) passphrase channel bssid connect).2.wifi.ssid_val =
          cstr sm ∧
        (begin k o s (some sm) passphrase channel bssid connect).2.wifi.ssid_len =
          strlen sm ∧
        (begin k o s (some sm) passphrase channel bssid connect).2.wifi.bssid =
          List.replicate k.ETH_ALEN 0 ∧
        (begin k o s (some sm) passphrase channel bssid connect).2.wifi.key_id = 0 ∧
        (passphrase = none →
          (begin k o s (some sm) passphrase channel bssid connect).2.wifi.security_type =
            k.RTW_SECURITY_OPEN ∧
          (begin k o s (some sm) passphrase channel bssid connect).2.wifi.password =
            PasswordPtr.null ∧
          (begin k o s (some sm) passphrase channel bssid connect).2.wifi.password_len = 0) ∧
        (∀ pm, passphrase = some pm →
          (begin k o s (some sm) passphrase channel bssid connect).2.wifi.security_type =
            k.RTW_SECURITY_WPA2_AES_PSK ∧
          (begin k o s (some sm) passphrase channel bssid connect).2.wifi.password =
            PasswordPtr.sta_password ∧
          cstr (begin k o s (some sm) passphrase channel bssid connect).2.sta_password =
            cstr pm ∧
          (begin k o s (some sm) passphrase channel bssid connect).2.wifi.password_len =
            strlen pm) ∧
        driverView (begin k o s (some sm) passphrase channel bssid connect).2 =
          (cstr sm, strlen sm, List.replicate k.ETH_ALEN 0,
            if passphrase.isSome then k.RTW_SECURITY_WPA2_AES_PSK
              else k.RTW_SECURITY_OPEN,
            passphrase.map cstr, (passphrase.map strlen).getD 0, 0)) ∧
    (o.enableSTA s.trace true = true →
      (callsSince s (begin k o s (some sm) passphrase channel bssid connect).2).countP
        Call.isConnect = 1) := by
  by_cases hen : o.enableSTA s.trace true = true
  · have hcalls := begin_accept_calls k o s sm passphrase channel bssid connect hen h1 h2 hp
    have hacc := begin_accept k o s sm passphrase channel bssid connect hen h1 h2 hp
    have hfr := reconnect_frame k o (storedState k s sm passphrase) bssid
    have hw : (begin k o s (some sm) passphrase channel bssid connect).2.wifi =
        (storedState k s sm passphrase).wifi := by
      rw [hacc]
      exact hfr.1
    have hpw : (begin k o s (some sm) passphrase channel bssid connect).2.sta_password =
        (storedState k s sm passphrase).sta_password := by
      rw [hacc]
      exact hfr.2
    constructor
    · intro c hc hi
      rw [hcalls] at hc
      have hc2 : c ∈ callsSince (storedState k s sm passphrase)
          (reconnect k o (storedState k s sm passphrase) bssid).2 := by
        rcases List.mem_append.mp hc with h | h
        · exfalso
          simp at h
          simp [h, Call.isConnect] at hi
        · exact h
      have hceq := mem_reconnect_calls k o _ bssid c hc2 hi
      refine ⟨?_, ?_, ?_, ?_, ?_, ?_, ?_, ?_⟩
      · rw [hceq]
        exact (connectCall_congr k _ _ bssid hw hpw).symm
      · rw [hw]
        exact cstr_strcpy _ _
      · rw [hw]
        rfl
      · rw [hw]
        exact memset_all _ _ _ (le_of_eq hb)
      · rw [hw]
        rfl
      · intro hn
        subst hn
        rw [hw]
        exact ⟨rfl, rfl, rfl⟩
      · intro pm hpm
        subst hpm
        rw [hw, hpw]
        exact ⟨rfl, rfl, cstr_strcpy _ _, rfl⟩
      · rw [driverView_congr _ _ hw hpw]
        exact storedState_view k s sm passphrase hb
    · intro _
      rw [hcalls]
      exact reconnect_connect_count k o _ bssid [Call.enableSTA true] rfl
  · have hno := begin_no_sta k o s (some sm) passphrase channel bssid connect
      (by simpa using hen)
    constructor
    · intro c hc hi
      exfalso
      rw [hno, begin_reject_calls] at hc
      simp at hc
      simp [hc, Call.isConnect] at hi
    · intro h
      exact absurd h hen

theorem begin_settings_witness :
    (1 ≤ strlen netSsid ∧ strlen netSsid ≤ 32 ∧ strlen newPass ≤ 64 ∧
      firstBegin.2.wifi.bssid.length = ambz.ETH_ALEN) ∧
    (callsSince firstBegin.2
      (begin ambz goodOracle firstBegin.2 (some netSsid) (some newPass) 0 none true).2).countP
        Call.isConnect = 1 :=
  ⟨by decide,
    (begin_settings ambz goodOracle firstBegin.2 netSsid (some newPass) 0 none true
      (by decide) (by decide) (fun pm h => by cases h; decide) (by decide)).2 rfl⟩

/-! ## Only begin writes the settings -/

theorem waitLoop_frame (k : Sdk) (o : Oracle) (start timeout : Nat) :
    ∀ (fuel : Nat) (s s2 : State), waitLoop k o start timeout fuel s = some s2 →
      s2.wifi = s.wifi ∧ s2.sta_password = s.sta_password := by
  intro fuel
  induction fuel with
  | zero =>
    intro s s2 h
    cases h
  | succ fuel ih =>
    intro s s2 h
    simp only [waitLoop] at h
    split_ifs at h
    · have h3 := ih _ _ h
      exact h3
    · cases h
      exact ⟨rfl, rfl⟩
    · have h3 := ih _ _ h
      exact h3
    · cases h
      exact ⟨rfl, rfl⟩
    · cases h
      exact ⟨rfl, rfl⟩

theorem run_frame (k : Sdk) (o : Oracle) (m : Method) (s s1 : State)
    (h : m.run k o s = some s1) :
    s1.wifi = s.wifi ∧ s1.sta_password = s.sta_password := by
  cases m with
  | config localIP gateway subnet dns1 dns2 =>
    simp only [Method.run, Option.some.injEq] at h
    subst h
    simp only [config, State.log]
    split_ifs <;> exact ⟨rfl, rfl⟩
  | reconnect bssid =>
    simp only [Method.run, Option.some.injEq] at h
    subst h
    exact reconnect_frame k o s bssid
  | disconnect wifiOff =>
    simp only [Method.run, Option.some.injEq] at h
    subst h
    cases wifiOff <;> exact ⟨rfl, rfl⟩
  | isConnected =>
    simp only [Method.run, Option.some.injEq] at h
    subst h
    exact ⟨rfl, rfl⟩
  | waitForConnectResult fuel timeout =>
    simp only [Method.run, waitForConnectResult] at h
    split_ifs at h
    · simp only [Option.map_some', Option.some.injEq] at h
      subst h
      exact ⟨rfl, rfl⟩
    · cases hl : waitLoop k o (o.millis s.trace) timeout fuel (s.log Call.millis) with
      | none => simp [hl] at h
      | some s2 =>
        simp only [hl, Option.map_some', Option.some.injEq] at h
        subst h
        have h3 := waitLoop_frame k o _ _ _ _ _ hl
        exact h3
  | SSID =>
    simp only [Method.run, Option.some.injEq] at h
    subst h
    simp only [SSID, isConnected, State.log]
    split_ifs <;> exact ⟨rfl, rfl⟩
  | psk =>
    simp only [Method.run, Option.some.injEq] at h
    subst h
    simp only [psk, isConnected, State.log]
    split_ifs
    · exact ⟨rfl, rfl⟩
    · split <;> exact ⟨rfl, rfl⟩

theorem runAll_frame (k : Sdk) (o : Oracle) :
    ∀ (ms : List Method) (s s1 : State), runAll k o ms s = some s1 →
      s1.wifi = s.wifi ∧ s1.sta_password = s.sta_password := by
  intro ms
  induction ms with
  | nil =>
    intro s s1 h
    simp only [runAll, Option.some.injEq] at h
    subst h
    exact ⟨rfl, rfl⟩
  | cons m ms ih =>
    intro s s1 h
    simp only [runAll] at h
    cases hm : m.run k o s with
    | none => simp [hm] at h
    | some s2 =>
      simp only [hm] at h
      have h1 := run_frame k o m s s2 hm
      have h2 := ih s2 s1 h
      exact ⟨h2.1.trans h1.1, h2.2.trans h1.2⟩

/-! ## psk and SSID -/

/-- C10, as the code has it: after a begin(ssid, passphrase) in which
enableSTA(true) succeeded and whose arguments passed validation, followed by
any calls of the other methods but no begin, psk() returns the string
passphrase when status() is WL_CONNECTED and passphrase was non-null, and the
empty string when status() is not WL_CONNECTED or passphrase was null; SSID()
returns the empty string, calling nothing but status(), when status() is not
WL_CONNECTED. -/
theorem psk_round_trip (k : Sdk) (o : Oracle) (s : State) (sm : List Nat)
    (passphrase : Option (List Nat)) (channel : Int) (bssid : Option (List Nat))
    (connect : Bool) (hen : o.enableSTA s.trace true = true)
    (h1 : 1 ≤ strlen sm) (h2 : strlen sm ≤ 32)
    (hp : ∀ pm, passphrase = some pm → strlen pm ≤ 64)
    (later : List Method) (s1 : State)
    (hrun : runAll k o later (begin k o s (some sm) passphrase channel bssid connect).2 =
      some s1) :
    (∀ pm, passphrase = some pm → o.status s1.trace = k.WL_CONNECTED →
      (psk k o s1).1 = cstr pm) ∧
    (o.status s1.trace ≠ k.WL_CONNECTED → (psk k o s1).1 = []) ∧
    (passphrase = none → (psk k o s1).1 = []) ∧
    (psk k o s1).2.trace = s1.trace ++ [Call.status] ∧
    (o.status s1.trace ≠ k.WL_CONNECTED →
      (SSID k o s1).1 = [] ∧ (SSID k o s1).2.trace = s1.trace ++ [Call.status]) := by
  have hacc := begin_accept k o s sm passphrase channel bssid connect hen h1 h2 hp
  have hfr := reconnect_frame k o (storedState k s sm passphrase) bssid
  obtain ⟨hw, hpw⟩ := runAll_frame k o later _ s1 hrun
  rw [hacc] at hw hpw
  simp only [] at hw hpw
  rw [hfr.1] at hw
  rw [hfr.2] at hpw
  refine ⟨?_, ?_, ?_, ?_, ?_⟩
  · intro pm hpm hst
    subst hpm
    simp [psk, isConnected, State.log, State.password, hst, hw, hpw, storedState, cstr_strcpy]
  · intro hst
    simp [psk, isConnected, hst]
  · intro hn
    subst hn
    by_cases hst : o.status s1.trace = k.WL_CONNECTED <;>
      simp [psk, isConnected, State.log, State.password, hst, hw, storedState]
  · by_cases hst : o.status s1.trace = k.WL_CONNECTED
    · cases hpp : s1.wifi.password <;>
        simp [psk, isConnected, State.log, State.password, hst, hpp]
    · simp [psk, isConnected, State.log, hst]
  · intro hst
    simp [SSID, isConnected, State.log, hst]

theorem psk_round_trip_witness :
    (flakyOracle.enableSTA boot.trace true = true ∧ 1 ≤ strlen netSsid ∧
      strlen netSsid ≤ 32 ∧ strlen oldPass ≤ 64 ∧
      runAll ambz flakyOracle [Method.disconnect false, Method.reconnect none, Method.SSID]
        firstBegin.2 = some laterState ∧
      flakyOracle.status laterState.trace = ambz.WL_CONNECTED) ∧
    (psk ambz flakyOracle laterState).1 = cstr oldPass :=
  ⟨by decide,
    (psk_round_trip ambz flakyOracle boot netSsid (some oldPass) 0 none true rfl
      (by decide) (by decide) (fun pm h => by cases h; decide)
      [Method.disconnect false, Method.reconnect none, Method.SSID] laterState
      (by decide)).1
      oldPass rfl rfl⟩

/-- C10 as stated fails: the arguments of the second begin pass validation, no
begin follows it and status() is WL_CONNECTED, yet psk() returns the passphrase
of the first begin, because enableSTA(true) failed in the second one. -/
theorem psk_round_trip_counterexample :
    1 ≤ strlen netSsid ∧ strlen netSsid ≤ 32 ∧ strlen newPass ≤ 64 ∧
    flakyOracle.status secondBegin.2.trace = ambz.WL_CONNECTED ∧
    (psk ambz flakyOracle secondBegin.2).1 = cstr oldPass ∧
    (psk ambz flakyOracle secondBegin.2).1 ≠ cstr newPass := by
  decide

/-! ## waitForConnectResult -/

end LibreTiny
